import Mathlib

/-!
Verification of the Celeste auto-splitter (repository `climb`).

The development shallowly embeds the two layers of the plugin:

* `process.rs` — the managed-runtime reflector — is embedded over a byte-level
  memory model `Mem : Nat → Option Nat` (a byte at every address, `none`
  meaning the host's `read_mem` fails there).  Machine integers are read
  little-endian; results carry an explicit constructor for the source's
  `panic!` branches and for the undefined `transmute` of an out-of-range
  kind byte.

* `lib.rs` — the per-tick snapshot (`Celeste::update`) and the split state
  machine (`MySplitter::update`) — is embedded over a trait-level interface
  record `ProcOps` mirroring the `CelesteProcess` trait plus `Process::read`:
  each method the tick loop calls becomes an oracle function, and the
  stateful Rust code becomes explicit state passing returning the new state,
  the list of timer commands issued, and the list of warn/error log events.
-/

/-! ## Byte-level memory model and the reflector (`process.rs`) -/

/-- Memory of the attached process: a byte (`some b`) or a failing read
(`none`) at every address.  Mirrors `Process::read_into_buf`. -/
def Mem : Type := Nat → Option Nat

/-- Read `n` consecutive bytes starting at `a`; any missing byte fails the
whole read, as a partial `read_mem` does. -/
def readBytes (m : Mem) : Nat → Nat → Option (List Nat)
  | _, 0 => some []
  | a, n + 1 =>
    match m a, readBytes m (a + 1) n with
    | some b, some bs => some (b :: bs)
    | _, _ => none

/-- Little-endian value of a byte list. -/
def leVal : List Nat → Nat
  | [] => 0
  | b :: bs => b + 256 * leVal bs

/-- Read an `n`-byte little-endian unsigned integer (models
`Process::read::<uN>`). -/
def readUInt (m : Mem) (a n : Nat) : Option Nat :=
  (readBytes m a n).map leVal

/-- `Process::read::<u8>`. -/
def readU8 (m : Mem) (a : Nat) : Option Nat := readUInt m a 1

/-- `Process::read::<u32>`. -/
def readU32 (m : Mem) (a : Nat) : Option Nat := readUInt m a 4

/-- `Process::read::<u64>`. -/
def readU64 (m : Mem) (a : Nat) : Option Nat := readUInt m a 8

/-- Modelled from the spec: `read_cstr` is provided by the host wrapper crate
and is not under `src/`; per the spec it reads a NUL-terminated byte string
("read C string ... NUL-terminated").  `fuel` bounds the scan so the
definition is total; a missing byte or exhausted fuel fails the read. -/
def readCStr (m : Mem) : Nat → Nat → Option String
  | 0, _ => none
  | fuel + 1, a =>
    match m a with
    | none => none
    | some 0 => some ""
    | some b => (readCStr m fuel (a + 1)).map (fun s => String.mk (Char.ofNat b :: s.data))

/-- `MonoKind` from `process.rs` (`#[repr(u8)]`, discriminants 1–6). -/
inductive MonoKind : Type
  | Def
  | Gtd
  | Ginst
  | Gparam
  | Array
  | Pointer
deriving DecidableEq, Repr

/-- The `repr(u8)` discriminant of a `MonoKind`. -/
def MonoKind.toNat : MonoKind → Nat
  | .Def => 1
  | .Gtd => 2
  | .Ginst => 3
  | .Gparam => 4
  | .Array => 5
  | .Pointer => 6

/-- Inverse of the discriminant map: defined exactly on 1..=6, the only
byte values for which the source's `mem::transmute` is defined. -/
def monoKindOfNat : Nat → Option MonoKind
  | 1 => some .Def
  | 2 => some .Gtd
  | 3 => some .Ginst
  | 4 => some .Gparam
  | 5 => some .Array
  | 6 => some .Pointer
  | _ => none

/-- Result of a reflector operation: `ok` mirrors `Some`, `fail` mirrors the
`None` produced by a failed read via `.ok()?`, `panicked` marks the source's
`panic!` branches, `undefined` marks the undefined-behaviour `transmute` of a
kind byte whose low 3 bits are outside 1..=6, and `fuelOut` marks exhaustion
of the termination fuel of an unboundedly recursive walk. -/
inductive RRes (α : Type) : Type
  | ok (a : α)
  | fail
  | panicked
  | undefined
  | fuelOut
deriving DecidableEq, Repr

/-- `class_kind` (`process.rs`): low 3 bits of the byte at `class + 0x24`,
reinterpreted as a `MonoKind`; masked values 0 and 7 hit undefined
`transmute` behaviour and are surfaced as `undefined`. -/
def class_kind (m : Mem) (cls : Nat) : RRes MonoKind :=
  match readU8 m (cls + 0x24) with
  | none => .fail
  | some b =>
    match monoKindOfNat (b % 8) with
    | some k => .ok k
    | none => .undefined

/-- `class_name` (`process.rs`): C string at `*(class + 0x40)`. -/
def class_name (m : Mem) (sfuel : Nat) (cls : Nat) : Option String :=
  match readU64 m (cls + 0x40) with
  | none => none
  | some p => readCStr m sfuel p

/-- The inner `while class != 0` chain walk of `lookup_class`: follow
`class + 0xf8` links; `ok (some c)` = name found at `c`, `ok none` = chain
ended at a null pointer, `fail` = a read failed. -/
def walkChain (m : Mem) (sfuel : Nat) (name : String) : Nat → Nat → RRes (Option Nat)
  | 0, _ => .fuelOut
  | fuel + 1, cls =>
    if cls = 0 then .ok none
    else
      match class_name m sfuel cls with
      | none => .fail
      | some n =>
        if n = name then .ok (some cls)
        else
          match readU64 m (cls + 0xf8) with
          | none => .fail
          | some next => walkChain m sfuel name fuel next

/-- The `for bucket in 0..table_size` loop of `lookup_class`; when every
bucket is exhausted without a match the source executes
`panic!("Couldn't find class: ...")`. -/
def lookupLoop (m : Mem) (sfuel cfuel : Nat) (name : String) (cache_table : Nat) :
    Nat → Nat → RRes Nat
  | 0, _ => .panicked
  | remaining + 1, bucket =>
    match readU64 m (cache_table + 8 * bucket) with
    | none => .fail
    | some head =>
      match walkChain m sfuel name cfuel head with
      | .ok (some c) => .ok c
      | .ok none => lookupLoop m sfuel cfuel name cache_table remaining (bucket + 1)
      | .fail => .fail
      | .panicked => .panicked
      | .undefined => .undefined
      | .fuelOut => .fuelOut

/-- `lookup_class` (`process.rs`): bucket table at `*(cache + 0x20)` of size
`*(u32)(cache + 0x18)`; walk every bucket chain; panic when nothing
matches. -/
def lookup_class (m : Mem) (sfuel cfuel : Nat) (cache : Nat) (name : String) : RRes Nat :=
  match readU64 m (cache + 0x20) with
  | none => .fail
  | some cache_table =>
    match readU32 m (cache + 0x18) with
    | none => .fail
    | some table_size => lookupLoop m sfuel cfuel name cache_table table_size 0

/-- Decode the buffer of `MonoClassField` records (`repr(C)`, size 32:
`ty:u64` at 0, `name:u64` at 8, `parent:u64` at 16, `offset:u32` at 24)
into (name pointer, offset) pairs. -/
def decodeFields : Nat → List Nat → List (Nat × Nat)
  | 0, _ => []
  | n + 1, bs =>
    (leVal ((bs.drop 8).take 8), leVal ((bs.drop 24).take 4)) :: decodeFields n (bs.drop 32)

/-- The `for field in fields` loop of `class_field_offset`: compare each
field's name C string; when no field matches the source executes
`panic!("Tried to lookup a nonexistent field: ...")`. -/
def findField (m : Mem) (sfuel : Nat) : List (Nat × Nat) → String → RRes Nat
  | [], _ => .panicked
  | (np, off) :: rest, name =>
    match readCStr m sfuel np with
    | none => .fail
    | some temp => if temp = name then .ok off else findField m sfuel rest name

/-- `class_field_offset` (`process.rs`): dispatch on `class_kind`; `Ginst`
recurses on `*( *(class + 0xe0) )`; `Def`/`Gtd` linearly search the fields
array (`num = *(u32)(class+0xf0)`, base `*(class+0x90)`, one batched read of
`32 * num` bytes); any other kind hits `panic!("Something is wrong")`.
`fuel` bounds the `Ginst` recursion, which the source leaves unbounded. -/
def class_field_offset (m : Mem) (sfuel : Nat) : Nat → Nat → String → RRes Nat
  | 0, _, _ => .fuelOut
  | fuel + 1, cls, name =>
    match class_kind m cls with
    | .fail => .fail
    | .undefined => .undefined
    | .panicked => .panicked
    | .fuelOut => .fuelOut
    | .ok k =>
      match k with
      | .Ginst =>
        match readU64 m (cls + 0xe0) with
        | none => .fail
        | some p =>
          match readU64 m p with
          | none => .fail
          | some d => class_field_offset m sfuel fuel d name
      | .Def | .Gtd =>
        match readU32 m (cls + 0xf0) with
        | none => .fail
        | some num_fields =>
          match readU64 m (cls + 0x90) with
          | none => .fail
          | some fields_addr =>
            match readBytes m fields_addr (32 * num_fields) with
            | none => .fail
            | some buf => findField m sfuel (decodeFields num_fields buf) name
      | _ => .panicked

/-! ## The splitter layer (`lib.rs`) -/

/-- The `Split` enum of `lib.rs`, the ordered sequence of splits. -/
inductive Split : Type
  | Start
  | Prologue
  | City
  | Site
  | Resort
  | Ridge
  | Cassette
  | Temple
  | Reflection
  | Summit2500M
  | Summit
  | End
deriving DecidableEq, Repr

/-- `Split::next` (`lib.rs`): successor in the order; `End` maps to itself. -/
def Split.next : Split → Split
  | .Start => .Prologue
  | .Prologue => .City
  | .City => .Site
  | .Site => .Resort
  | .Resort => .Ridge
  | .Ridge => .Cassette
  | .Cassette => .Temple
  | .Temple => .Reflection
  | .Reflection => .Summit2500M
  | .Summit2500M => .Summit
  | .Summit => .End
  | .End => .End

/-- Position of a split in the declared order (used to state monotonicity). -/
def Split.toNat : Split → Nat
  | .Start => 0
  | .Prologue => 1
  | .City => 2
  | .Site => 3
  | .Resort => 4
  | .Ridge => 5
  | .Cassette => 6
  | .Temple => 7
  | .Reflection => 8
  | .Summit2500M => 9
  | .Summit => 10
  | .End => 11

/-- The `AutoSplitterInfo` struct exposed by the game (`lib.rs`).  `u64`
fields become `Nat`, `i32`/`i64` fields become `Int` (arithmetic that casts
them in the source is modelled with explicit wrapping). -/
structure AutoSplitterInfo : Type where
  level : Nat
  chapter : Int
  mode : Int
  timer_active : Bool
  chapter_started : Bool
  chapter_complete : Bool
  chapter_time : Int
  chapter_strawberries : Int
  chapter_cassette : Bool
  chapter_heart : Bool
  file_time : Int
  file_strawberries : Int
  file_cassettes : Int
  file_hearts : Int
deriving DecidableEq, Repr

/-- The per-tick `Info` snapshot (`lib.rs`). -/
structure Info : Type where
  asi : AutoSplitterInfo
  death_count : Nat
  checkpoint : Nat
  in_cutscene : Bool
  room : String
deriving DecidableEq, Repr

/-- `Info::file_time` in whole milliseconds:
`Duration::from_millis(self.asi.file_time as u64 / 10000)`.  The `i64 → u64`
cast wraps, hence the explicit `% 2^64` via `Int.emod`. -/
def Info.fileTimeMs (i : Info) : Nat :=
  (i.asi.file_time.emod (2 ^ 64)).toNat / 10000

/-- `i32 as u64` (sign extension then reinterpretation). -/
def intCastU64 (x : Int) : Nat := (x.emod (2 ^ 64)).toNat

/-- Timer commands issued to the host (the `HostFunctions` calls the tick
loop makes; `setGameTime` carries the whole-millisecond duration). -/
inductive Cmd : Type
  | reset
  | start
  | split
  | pause
  | unpause
  | setGameTime (ms : Nat)
  | setVariable (key val : String)
deriving DecidableEq, Repr

/-- Log events (`log::warn!` / `log::error!` / the `log::info!` of
`debug_state`). -/
inductive LogEvent : Type
  | warn (msg : String)
  | error (msg : String)
  | info
deriving DecidableEq, Repr

/-- Trait-level interface to the attached process: one oracle function per
`CelesteProcess` / `Process` method the tick loop calls.  `readAsi` models
`read_into_buf` of `size_of::<AutoSplitterInfo>()` bytes at the payload
address followed by `ptr::read`. -/
structure ProcOps : Type where
  readAsi : Nat → Option AutoSplitterInfo
  read_boxed_string : Nat → Option String
  static_field : Nat → String → Option Nat
  instance_field_u32 : Nat → String → Option Nat
  instance_field_u64 : Nat → String → Option Nat
  read_u64 : Nat → Option Nat
  read_u8 : Nat → Option Nat
  class_field_offset : Nat → String → Option Nat
  instance_class : Nat → Option Nat

/-- The `Celeste` adapter struct (`lib.rs`), minus the owned process handle
(which lives behind `ProcOps`).  `instance_addr` is the field named
`instance` in the source (`instance` is reserved in Lean). -/
structure Celeste : Type where
  instance_addr : Nat
  save_data_class : Nat
  engine_class : Nat
  level_class : Nat
  info : Nat
  prev_save : Nat
  mode_stats : Nat
deriving DecidableEq, Repr

/-- The `mode_stats` resolution block of `Celeste::update` (`lib.rs`,
the `else if self.mode_stats == 0` arm): `none` aborts the snapshot with the
state unchanged; `some c'` carries the possibly updated `mode_stats`. -/
def resolveModeStats (p : ProcOps) (c : Celeste) (asi : AutoSplitterInfo)
    (save_addr : Nat) : Option Celeste :=
  match p.instance_field_u64 save_addr "Areas" with
  | none => none
  | some areas_obj =>
    match p.instance_field_u32 areas_obj "_size" with
    | none => none
    | some size =>
      match (if size = 11 then p.instance_field_u64 areas_obj "_items" else some 0) with
      | none => none
      | some areas_arr =>
        if areas_arr ≠ 0 then
          match p.read_u64 ((areas_arr + 0x20 + intCastU64 asi.chapter * 8) % 2 ^ 64) with
          | none => none
          | some area_stats =>
            match p.instance_field_u64 area_stats "Modes" with
            | none => none
            | some modes =>
              match p.read_u64 ((modes + 0x20 + intCastU64 asi.mode * 8) % 2 ^ 64) with
              | none => none
              | some ms => some { c with mode_stats := ms }
        else some c

/-- The `if save_addr != 0` block of `Celeste::update` (`lib.rs`): the
changed-save early return, `TotalDeaths`, the `mode_stats` cache and the
checkpoint count.  Returns the updated adapter, `some (death_count,
checkpoint)` or `none` when the snapshot aborts, and any log events. -/
def Celeste.saveBlock (p : ProcOps) (c : Celeste) (asi : AutoSplitterInfo)
    (save_addr : Nat) : Celeste × Option (Nat × Nat) × List LogEvent :=
  if save_addr ≠ c.prev_save then
    ({ c with prev_save := save_addr, mode_stats := 0 }, none, [.warn "changed saves"])
  else
    match p.instance_field_u32 save_addr "TotalDeaths" with
    | none => (c, none, [])
    | some death_count =>
      match
        (if asi.chapter = -1 then some { c with mode_stats := 0 }
         else if c.mode_stats = 0 then resolveModeStats p c asi save_addr
         else some c) with
      | none => (c, none, [])
      | some c1 =>
        if c1.mode_stats ≠ 0 then
          match p.instance_field_u64 c1.mode_stats "Checkpoints" with
          | none => (c1, none, [])
          | some checkpoints_obj =>
            match p.instance_field_u32 checkpoints_obj "_count" with
            | none => (c1, none, [])
            | some checkpoint => (c1, some (death_count, checkpoint), [])
        else (c1, some (death_count, 0), [])

/-- The `in_cutscene` computation of `Celeste::update` (`lib.rs`). -/
def Celeste.inCutsceneCalc (p : ProcOps) (c : Celeste) (asi : AutoSplitterInfo) :
    Option Bool :=
  if asi.chapter = -1 then some false
  else if !asi.chapter_started || asi.chapter_complete then some true
  else
    match p.class_field_offset c.engine_class "scene" with
    | none => none
    | some scene_field =>
      match p.read_u64 ((c.instance_addr + scene_field) % 2 ^ 64) with
      | none => none
      | some scene =>
        match p.instance_class scene with
        | none => none
        | some cls =>
          if cls ≠ c.level_class then some false
          else
            match p.class_field_offset c.level_class "InCutscene" with
            | none => none
            | some in_cutscene_off =>
              match p.read_u8 ((scene + in_cutscene_off) % 2 ^ 64) with
              | none => none
              | some b => some (b != 0)

/-- `Celeste::update` (`lib.rs`): the per-tick snapshot.  Returns the
adapter (whose `prev_save`/`mode_stats` scratch cursors may have been
updated even when the snapshot aborts), the optional `Info`, and log
events. -/
def Celeste.update (p : ProcOps) (c : Celeste) : Celeste × Option Info × List LogEvent :=
  match p.readAsi c.info with
  | none => (c, none, [])
  | some asi =>
    match (if asi.level ≠ 0 then p.read_boxed_string asi.level else some "") with
    | none => (c, none, [])
    | some room =>
      match p.static_field c.save_data_class "Instance" with
      | none => (c, none, [])
      | some save_addr =>
        match (if save_addr ≠ 0 then Celeste.saveBlock p c asi save_addr
               else (c, some (0, 0), [])) with
        | (c1, none, logs) => (c1, none, logs)
        | (c1, some (death_count, checkpoint), logs) =>
          match Celeste.inCutsceneCalc p c1 asi with
          | none => (c1, none, logs)
          | some ics =>
            (c1, some { asi := asi, death_count := death_count,
                        checkpoint := checkpoint, in_cutscene := ics, room := room },
             logs)

/-- The `MySplitter` struct (`lib.rs`): the splitter's persistent state. -/
structure MySplitter : Type where
  state : Option Celeste
  old_info : Option Info
  was_connected : Bool
  current_split : Split
  failed_reads : Nat
deriving DecidableEq, Repr

/-- The reset trigger of `MySplitter::update` (`lib.rs`): chapter 0, room
`"0"`, rising edge of `chapter_started`, file time under one second. -/
def resetTrigger (old new : Info) : Bool :=
  new.asi.chapter == 0 && new.room == "0" && new.asi.chapter_started
    && !old.asi.chapter_started && new.fileTimeMs < 1000

/-- `finished_chapter` (`lib.rs`): `chapter_complete` falling edge. -/
def finishedChapter (old new : Info) : Bool :=
  old.asi.chapter_complete && !new.asi.chapter_complete

/-- The split condition match of `MySplitter::update` (`lib.rs`), evaluated
against the current value of `current_split`. -/
def splitCond (s : Split) (old new : Info) : Bool :=
  match s with
  | .Start | .End => false
  | .Prologue | .City | .Site | .Resort | .Ridge | .Reflection | .Summit =>
    finishedChapter old new
  | .Cassette => new.asi.file_cassettes == 1 && !new.asi.chapter_started
  | .Temple => new.asi.file_hearts == 1 && new.asi.chapter_complete
  | .Summit2500M => new.checkpoint == 6

/-- The change detector of `MySplitter::debug_state` (`lib.rs`): true when
any of the ten compared fields differs, in which case one `info!` line is
logged. -/
def debugDiff (old new : Info) : Bool :=
  old.asi.timer_active != new.asi.timer_active
    || old.asi.chapter != new.asi.chapter
    || old.asi.mode != new.asi.mode
    || old.asi.chapter_started != new.asi.chapter_started
    || old.asi.chapter_complete != new.asi.chapter_complete
    || old.asi.file_cassettes != new.asi.file_cassettes
    || old.asi.file_hearts != new.asi.file_hearts
    || old.in_cutscene != new.in_cutscene
    || old.checkpoint != new.checkpoint
    || old.room != new.room

/-- `MySplitter::update` (`lib.rs`).  `t` is the outcome of `try_init`
(consulted only when no adapter is held: `try_init` stores the freshly
built adapter in `self.state` on success and leaves it `None` on failure).
Returns the new splitter state, the timer commands issued this tick in
order, and the log events in order. -/
def MySplitter.update (p : ProcOps) (t : Option Celeste) (s : MySplitter) :
    MySplitter × List Cmd × List LogEvent :=
  match s.state with
  | some st =>
    match Celeste.update p st with
    | (st', new_info, logs0) =>
      match s.old_info, new_info with
      | some old, some new =>
        let (cmds1, split1) :=
          if resetTrigger old new then ([Cmd.reset, Cmd.start], Split.Prologue)
          else ([], s.current_split)
        let cmds2 : List Cmd :=
          if new.asi.chapter_started then
            Cmd.setGameTime new.fileTimeMs ::
              (if !old.asi.chapter_started then [Cmd.unpause] else [])
          else if old.asi.chapter_started then [Cmd.pause] else []
        let (cmds3, split2) :=
          if splitCond split1 old new then ([Cmd.split], Split.next split1)
          else ([], split1)
        let cmds4 : List Cmd :=
          if old.death_count ≠ new.death_count then
            [Cmd.setVariable "Deaths" (toString new.death_count)]
          else []
        let logs1 : List LogEvent := if debugDiff old new then [LogEvent.info] else []
        ({ state := some st', old_info := some new, was_connected := true,
           current_split := split2, failed_reads := 0 },
         cmds1 ++ cmds2 ++ cmds3 ++ cmds4, logs0 ++ logs1)
      | none, some new =>
        ({ state := some st', old_info := some new, was_connected := true,
           current_split := s.current_split, failed_reads := s.failed_reads },
         [], logs0)
      | some _, none =>
        if s.failed_reads + 1 = 100 then
          ({ state := none, old_info := none, was_connected := true,
             current_split := s.current_split, failed_reads := s.failed_reads + 1 },
           [], logs0 ++ [LogEvent.warn "failed a read, will retry next step",
                         LogEvent.error "disconnected, will try to re-connect"])
        else
          ({ state := some st', old_info := s.old_info, was_connected := true,
             current_split := s.current_split, failed_reads := s.failed_reads + 1 },
           [], logs0 ++ [LogEvent.warn "failed a read, will retry next step"])
      | none, none =>
        ({ state := some st', old_info := none, was_connected := true,
           current_split := s.current_split, failed_reads := s.failed_reads },
         [], logs0)
  | none =>
    match t with
    | some c => ({ s with state := some c }, [], [])
    | none =>
      if s.was_connected then
        ({ s with was_connected := false }, [], [LogEvent.warn "failed to connect to Celeste"])
      else (s, [], [])

/-- Run `n` consecutive `update` ticks, the `i`-th against process interface
`ps i`, concatenating the commands and logs. -/
def runSeq (ps : Nat → ProcOps) (t : Option Celeste) :
    Nat → MySplitter → MySplitter × List Cmd × List LogEvent
  | 0, s => (s, [], [])
  | n + 1, s =>
    match MySplitter.update (ps 0) t s with
    | (s1, c1, l1) =>
      match runSeq (fun i => ps (i + 1)) t n s1 with
      | (s2, c2, l2) => (s2, c1 ++ c2, l1 ++ l2)

/-- Number of warn-level events in a log. -/
def countWarn (l : List LogEvent) : Nat :=
  l.countP (fun e => match e with | .warn _ => true | _ => false)

/-- Number of error-level events in a log. -/
def countError (l : List LogEvent) : Nat :=
  l.countP (fun e => match e with | .error _ => true | _ => false)

/-! ## Concrete fixtures for witnesses and counterexamples -/

/-- All-zero `AutoSplitterInfo` (the `Default` impl). -/
def asiZero : AutoSplitterInfo :=
  { level := 0, chapter := 0, mode := 0, timer_active := false,
    chapter_started := false, chapter_complete := false, chapter_time := 0,
    chapter_strawberries := 0, chapter_cassette := false, chapter_heart := false,
    file_time := 0, file_strawberries := 0, file_cassettes := 0, file_hearts := 0 }

/-- An adapter with all addresses zero (addresses only feed the oracles). -/
def c0 : Celeste :=
  { instance_addr := 0, save_data_class := 0, engine_class := 0, level_class := 0,
    info := 0, prev_save := 0, mode_stats := 0 }

/-- A process interface on which every read fails (the game is gone). -/
def pFail : ProcOps :=
  { readAsi := fun _ => none, read_boxed_string := fun _ => none,
    static_field := fun _ _ => none, instance_field_u32 := fun _ _ => none,
    instance_field_u64 := fun _ _ => none, read_u64 := fun _ => none,
    read_u8 := fun _ => none, class_field_offset := fun _ _ => none,
    instance_class := fun _ => none }

/-- A menu-screen snapshot (`chapter = -1`, no save loaded): the simplest
input on which `Celeste::update` succeeds. -/
def asiMenu : AutoSplitterInfo := { asiZero with chapter := -1 }

/-- Like `asiMenu` but with the chapter-complete flag raised. -/
def asiMenuDone : AutoSplitterInfo := { asiMenu with chapter_complete := true }

/-- A process interface whose snapshot always succeeds with `asiMenu`
(save pointer zero, so no save-derived reads happen). -/
def pOk : ProcOps :=
  { pFail with readAsi := fun _ => some asiMenu, static_field := fun _ _ => some 0 }

/-- The `Info` produced by `Celeste.update pOk c0`. -/
def infoMenu : Info :=
  { asi := asiMenu, death_count := 0, checkpoint := 0, in_cutscene := false, room := "" }

/-- Previous-tick snapshot with `chapter_complete = true` (so the next
`asiMenu` tick is a `chapter_complete` falling edge). -/
def infoMenuDone : Info :=
  { asi := asiMenuDone, death_count := 0, checkpoint := 0, in_cutscene := true, room := "" }


/-- Previous snapshot / process interface for the cold-start scenario:
snapshot N (`chapter=0`, `room="0"`, not started, `file_time=0`; `level`
points at the boxed room-name string). -/
def asiPre3 : AutoSplitterInfo := { asiZero with level := 5 }

/-- Snapshot N+1 of the cold-start scenario: `chapter_started` now true,
raw `file_time = 42`. -/
def asiPost3 : AutoSplitterInfo := { asiPre3 with chapter_started := true, file_time := 42 }

/-- `Info` for snapshot N of the cold-start scenario. -/
def infoPre3 : Info :=
  { asi := asiPre3, death_count := 0, checkpoint := 0, in_cutscene := true, room := "0" }

/-- `Info` for snapshot N+1 of the cold-start scenario. -/
def infoPost3 : Info :=
  { asi := asiPost3, death_count := 0, checkpoint := 0, in_cutscene := false, room := "0" }

/-- Process interface delivering snapshot N+1 of the cold-start scenario
(no save loaded; the engine's scene is not a `Level`, so `in_cutscene` is
false). -/
def p3 : ProcOps :=
  { readAsi := fun _ => some asiPost3, read_boxed_string := fun _ => some "0",
    static_field := fun _ _ => some 0, instance_field_u32 := fun _ _ => none,
    instance_field_u64 := fun _ _ => none, read_u64 := fun _ => some 1,
    read_u8 := fun _ => some 0, class_field_offset := fun _ _ => some 0,
    instance_class := fun _ => some 99 }

/-- Splitter state holding snapshot N of the cold-start scenario. -/
def s3 : MySplitter :=
  { state := some c0, old_info := some infoPre3, was_connected := true,
    current_split := Split.Start, failed_reads := 0 }

/-- Connected splitter state with a previous snapshot and a clean failure
counter (start state of the sustained-failure scenario). -/
def s0Fail : MySplitter :=
  { state := some c0, old_info := some infoMenu, was_connected := true,
    current_split := Split.Start, failed_reads := 0 }

/-- Splitter state right after a reattach: an adapter but no previous
snapshot, with the stale `failed_reads = 100` left by the drop. -/
def s4 : MySplitter :=
  { state := some c0, old_info := none, was_connected := true,
    current_split := Split.Site, failed_reads := 100 }

/-- Per-tick process interfaces of the save-swap scenario: the snapshot
itself always succeeds, but `SaveData.Instance` reads a fresh nonzero
address `i + 1` on tick `i`. -/
def psC8 (i : Nat) : ProcOps :=
  { pFail with readAsi := fun _ => some asiMenu, static_field := fun _ _ => some (i + 1) }

/-- Connected splitter state mid-run (split `Site` reached) used by the
save-swap and reattach-resumption scenarios. -/
def s8 : MySplitter :=
  { state := some c0, old_info := some infoMenu, was_connected := true,
    current_split := Split.Site, failed_reads := 0 }

/-- Memory all of whose bytes are zero: every class cache read succeeds and
yields an empty table, so `lookup_class` exhausts its buckets. -/
def mzAll : Mem := fun _ => some 0

/-- Memory describing a class of kind `Def` (kind byte 1 at `+0x24`) with
zero fields: `class_field_offset` exhausts the (empty) fields array. -/
def mDefNoField : Mem := fun a => some (if a = 0x24 then 1 else 0)

/-- Memory describing a class of kind `Gparam` (kind byte 4 at `+0x24`):
`class_field_offset` hits its unexpected-kind arm. -/
def mGparam : Mem := fun a => some (if a = 0x24 then 4 else 0)

/-- Memory holding a `Ginst` class `G` at `0x1000` whose generic definition
`D = *( *(G+0xe0) )` sits at `0x3000`: `D` has kind `Def` and one field
named `"x"` with offset 42 (field array at `0x4000`, name string at
`0x5000`). -/
def memG : Mem := fun a =>
  some (if a = 0x1024 then 3
    else if a = 0x10e1 then 0x20
    else if a = 0x2001 then 0x30
    else if a = 0x3024 then 1
    else if a = 0x30f0 then 1
    else if a = 0x3091 then 0x40
    else if a = 0x4009 then 0x50
    else if a = 0x4018 then 42
    else if a = 0x5000 then 120
    else 0)

/-- The split conditions exactly as the specification states them
(spec §4.6), used to check the source's condition table against the spec's
words. -/
def splitCondSpec (s : Split) (old new : Info) : Prop :=
  match s with
  | .Start | .End => False
  | .Prologue | .City | .Site | .Resort | .Ridge | .Reflection | .Summit =>
    old.asi.chapter_complete = true ∧ new.asi.chapter_complete = false
  | .Cassette => new.asi.file_cassettes = 1 ∧ new.asi.chapter_started = false
  | .Temple => new.asi.file_hearts = 1 ∧ new.asi.chapter_complete = true
  | .Summit2500M => new.checkpoint = 6

/-- Whether the reset trigger fires on this tick (both snapshots present and
the trigger condition holds on them). -/
def triggerFired (p : ProcOps) (s : MySplitter) : Bool :=
  match s.state, s.old_info with
  | some st, some old =>
    match (Celeste.update p st).2.1 with
    | some new => resetTrigger old new
    | none => false
  | _, _ => false

/-! ## Helper lemmas -/

set_option maxRecDepth 10000

/-- The source's boolean split condition agrees with the spec's condition
table. -/
theorem splitCond_iff (sp : Split) (old new : Info) :
    splitCond sp old new = true ↔ splitCondSpec sp old new := by
  cases sp <;>
    simp [splitCond, splitCondSpec, finishedChapter, Bool.and_eq_true,
      Bool.not_eq_true']

/-! ## Claim theorems -/

/-- C1: on every update tick with both a previous and a current snapshot, a
split command is emitted iff the spec's condition table holds at the value
`current_split` has when the split check runs (`eff`: the stored split, set
to `Prologue` first when the reset trigger fires this tick); and exactly
when a split is emitted, `current_split` advances to its successor in the
declared order (`Split.next`, with `End` mapped to itself). -/
theorem split_decision (p : ProcOps) (t : Option Celeste) (s : MySplitter)
    (st st' : Celeste) (old new : Info) (lg : List LogEvent) (eff : Split)
    (h1 : s.state = some st) (h2 : s.old_info = some old)
    (h3 : Celeste.update p st = (st', some new, lg))
    (heff : eff = if resetTrigger old new then Split.Prologue else s.current_split) :
    (Cmd.split ∈ (MySplitter.update p t s).2.1 ↔ splitCondSpec eff old new)
    ∧ (Cmd.split ∈ (MySplitter.update p t s).2.1 →
        (MySplitter.update p t s).1.current_split = Split.next eff)
    ∧ (Cmd.split ∉ (MySplitter.update p t s).2.1 →
        (MySplitter.update p t s).1.current_split = eff) := by
  obtain ⟨st0, oi, wc, cs, fr⟩ := s
  dsimp only at h1 h2 heff
  subst h1; subst h2
  rw [← splitCond_iff eff old new]
  dsimp only [MySplitter.update]
  rw [h3]
  dsimp only
  cases hr : resetTrigger old new
  · simp only [hr, Bool.false_eq_true, if_false] at heff ⊢
    rw [← heff]
    cases hc : splitCond eff old new <;>
      simp [hc, List.mem_append] <;>
        cases new.asi.chapter_started <;>
          cases old.asi.chapter_started <;> simp
  · simp only [hr, if_true] at heff ⊢
    rw [← heff]
    cases hc : splitCond eff old new <;>
      simp [hc, List.mem_append] <;>
        cases new.asi.chapter_started <;>
          cases old.asi.chapter_started <;> simp

/-- Witness for C1 at a concrete connected tick (split `Site`, menu
snapshots on both sides: the condition fails and the split is kept). -/
theorem split_decision_witness :
    (Cmd.split ∈ (MySplitter.update pOk none s8).2.1 ↔
      splitCondSpec Split.Site infoMenu infoMenu)
    ∧ (Cmd.split ∈ (MySplitter.update pOk none s8).2.1 →
        (MySplitter.update pOk none s8).1.current_split = Split.next Split.Site)
    ∧ (Cmd.split ∉ (MySplitter.update pOk none s8).2.1 →
        (MySplitter.update pOk none s8).1.current_split = Split.Site) :=
  split_decision pOk none s8 c0 c0 infoMenu infoMenu [] Split.Site
    rfl rfl rfl (by decide)

/-- C2: the reflection operations do abort.  On a class cache none of whose
bucket chains contains the requested name, `lookup_class` reaches its
`panic!` (here: an all-zero memory, so the table is empty); on a `Def` class
none of whose field descriptors carries the requested name,
`class_field_offset` reaches its `panic!` (here: a zero-field class); and a
class of unexpected kind (`Gparam`) during field resolution reaches the
third `panic!` — none of these is a recoverable absent result. -/
theorem reflection_panics :
    lookup_class mzAll 10 10 0 "Foo" = RRes.panicked
    ∧ class_field_offset mDefNoField 10 1 0 "x" = RRes.panicked
    ∧ class_field_offset mGparam 10 1 0 "x" = RRes.panicked := by decide

/-- C3 counterexample: on exactly the claimed cold-start tick (previous
snapshot `chapter=0, room="0", chapter_started=false, file_time=0`; current
identical except `chapter_started=true, file_time=42`) the emitted command
sequence is `reset, start, set_game_time(0 ms), unpause` — `set_game_time`
precedes `unpause`, and the raw `file_time = 42` is 0 whole milliseconds —
not the claimed `reset, start, unpause, set_game_time(42 ms)`. -/
theorem cold_start_counterexample :
    (MySplitter.update p3 none s3).2.1 =
      [Cmd.reset, Cmd.start, Cmd.setGameTime 0, Cmd.unpause]
    ∧ (MySplitter.update p3 none s3).2.1 ≠
      [Cmd.reset, Cmd.start, Cmd.unpause, Cmd.setGameTime 42] := by decide

/-- C3 amended: on the cold-start tick the snapshot succeeds, the commands
emitted are exactly `reset`, `start`, `set_game_time(0 s)`, `unpause` in
that order, and `current_split` advances Start → Prologue. -/
theorem cold_start_amended :
    Celeste.update p3 c0 = (c0, some infoPost3, [])
    ∧ s3.current_split = Split.Start
    ∧ (MySplitter.update p3 none s3).2.1 =
        [Cmd.reset, Cmd.start, Cmd.setGameTime 0, Cmd.unpause]
    ∧ (MySplitter.update p3 none s3).1.current_split = Split.Prologue := by decide

/-- C4: after an update tick whose snapshot succeeds but where no previous
snapshot was held (the state reached right after a reattachment), the
stored `failed_reads` is NOT reset — here it stays 100 — and consequently
150 subsequent consecutive read failures count 101, 102, … past the
`== 100` test without ever dropping the adapter: the reconnect bound of the
claim is violated. -/
theorem failed_reads_not_reset :
    (MySplitter.update pOk none s4).1.old_info = some infoMenu
    ∧ (MySplitter.update pOk none s4).1.failed_reads = 100
    ∧ (MySplitter.update pOk none s4).1.failed_reads ≠ 0
    ∧ (runSeq (fun _ => pFail) none 150 (MySplitter.update pOk none s4).1).1.state
        = some c0
    ∧ (runSeq (fun _ => pFail) none 150 (MySplitter.update pOk none s4).1).1.failed_reads
        = 250 := by decide

/-- C5 counterexample: over the claimed scenario — 100 consecutive ticks
with an absent snapshot after a successful one — the code emits a warning
on every failing tick, 100 warnings in total, not exactly one. -/
theorem sustained_failure_counterexample :
    countWarn (runSeq (fun _ => pFail) none 100 s0Fail).2.2 = 100
    ∧ countWarn (runSeq (fun _ => pFail) none 100 s0Fail).2.2 ≠ 1 := by decide

/-- C5 amended: over 100 consecutive failing ticks after a successful
snapshot, a warning is emitted on every failing tick (100 in total), exactly
one error is emitted, at the 100th failure (the log is 100 warnings followed
by the single error), at which point the adapter and the previous snapshot
are dropped; the following tick takes the reattachment branch (with
`try_init` succeeding it stores the fresh adapter). -/
theorem sustained_failure_amended :
    (runSeq (fun _ => pFail) none 100 s0Fail).1 =
      { state := none, old_info := none, was_connected := true,
        current_split := Split.Start, failed_reads := 100 }
    ∧ (runSeq (fun _ => pFail) none 100 s0Fail).2.2 =
        List.replicate 100 (LogEvent.warn "failed a read, will retry next step")
          ++ [LogEvent.error "disconnected, will try to re-connect"]
    ∧ countError (runSeq (fun _ => pFail) none 100 s0Fail).2.2 = 1
    ∧ (MySplitter.update pFail (some c0) (runSeq (fun _ => pFail) none 100 s0Fail).1).1.state
        = some c0 := by decide

/-- Connected splitter state that has reached the final split `End`. -/
def s6 : MySplitter :=
  { state := some c0, old_info := some infoPre3, was_connected := true,
    current_split := Split.End, failed_reads := 0 }

/-- C6 counterexample: `current_split = End` does not persist forever — on a
tick whose snapshots satisfy the reset trigger, the code sets
`current_split = Prologue` even from `End`. -/
theorem end_absorbing_counterexample :
    s6.current_split = Split.End
    ∧ (MySplitter.update p3 none s6).1.current_split = Split.Prologue
    ∧ (MySplitter.update p3 none s6).1.current_split ≠ Split.End := by decide

/-- `Split.next` never moves backward in the declared order. -/
theorem toNat_le_next (sp : Split) : Split.toNat sp ≤ Split.toNat (Split.next sp) := by
  cases sp <;> decide

/-- C6 amended: across every single `update` invocation, when the reset
trigger does not fire `current_split` never moves backward in the declared
order and `End` is preserved (`End` is absorbing under split advancement,
`next End = End`); when the reset trigger fires, `current_split` is set to
`Prologue` (and is `City` only if the `Prologue` split condition also holds
on the same tick). -/
theorem split_monotone (p : ProcOps) (t : Option Celeste) (s : MySplitter) :
    (triggerFired p s = false →
      Split.toNat s.current_split ≤ Split.toNat (MySplitter.update p t s).1.current_split
      ∧ (s.current_split = Split.End →
          (MySplitter.update p t s).1.current_split = Split.End))
    ∧ (triggerFired p s = true →
        (MySplitter.update p t s).1.current_split = Split.Prologue
        ∨ (MySplitter.update p t s).1.current_split = Split.City) := by
  obtain ⟨st0, oi, wc, cs, fr⟩ := s
  cases st0 with
  | none =>
    cases t <;> cases wc <;>
      simp [MySplitter.update, triggerFired]
  | some st =>
    rcases hcu : Celeste.update p st with ⟨st', ni, lg⟩
    cases ni with
    | none =>
      cases oi with
      | none => simp [MySplitter.update, triggerFired, hcu]
      | some old =>
        by_cases hfr : fr + 1 = 100 <;>
          simp [MySplitter.update, triggerFired, hcu, hfr]
    | some new =>
      cases oi with
      | none => simp [MySplitter.update, triggerFired, hcu]
      | some old =>
        simp only [MySplitter.update, triggerFired, hcu]
        cases hr : resetTrigger old new
        · simp only [Bool.false_eq_true, if_false]
          cases hc : splitCond cs old new
          · simp
          · simp only [if_true]
            constructor
            · intro _
              refine ⟨toNat_le_next cs, ?_⟩
              intro h
              subst h
              simp [splitCond] at hc
            · intro h
              simp at h
        · simp only [eq_self_iff_true, if_true]
          constructor
          · intro h
            exact absurd h (by simp)
          · intro _
            cases hc : splitCond Split.Prologue old new
            · simp [hc]
            · simp [hc, Split.next]

/-- Witness for C6 (amended) at a concrete no-trigger tick. -/
theorem split_monotone_witness :
    Split.toNat s8.current_split ≤
      Split.toNat (MySplitter.update pOk none s8).1.current_split :=
  ((split_monotone pOk none s8).1 (by decide)).1

/-- C7: for a class `G` whose kind byte's low 3 bits decode to `Ginst`
(value 3), and whose generic definition pointer chain
`D = *( *(G + 0xe0) )` reads successfully, `class_field_offset` on `G`
returns exactly `class_field_offset` on `D` for every field name (the
recursion consumes one unit of the fuel that makes the source's unbounded
recursion total). -/
theorem ginst_recursion (m : Mem) (sfuel G b pp D : Nat) (name : String)
    (hk : readU8 m (G + 0x24) = some b) (hb : b % 8 = 3)
    (hp : readU64 m (G + 0xe0) = some pp) (hd : readU64 m pp = some D) :
    ∀ fuel, class_field_offset m sfuel (fuel + 1) G name
      = class_field_offset m sfuel fuel D name := by
  intro fuel
  simp [class_field_offset, class_kind, hk, hb, hp, hd, monoKindOfNat]

/-- Witness for C7 on the concrete `memG` layout: the lookup through the
`Ginst` class at `0x1000` agrees with the lookup on its definition at
`0x3000`, both resolving field `"x"` to offset 42. -/
theorem ginst_recursion_witness :
    class_field_offset memG 10 2 0x1000 "x" = class_field_offset memG 10 1 0x3000 "x"
    ∧ class_field_offset memG 10 1 0x3000 "x" = RRes.ok 42 :=
  ⟨ginst_recursion memG 10 0x1000 3 0x2000 0x3000 "x" (by decide) (by decide)
      (by decide) (by decide) 1,
   by decide⟩

/-- C10: `class_kind` masks the kind byte to its low 3 bits; for masked
values 1..=6 it yields the `MonoKind` with that discriminant, and for masked
values 0 and 7 — where the source's `transmute` is undefined — the embedding
surfaces the unreachable error branch (`undefined`). -/
theorem class_kind_decode (m : Mem) (cls b : Nat)
    (h : readU8 m (cls + 0x24) = some b) :
    ((b % 8 = 0 ∨ b % 8 = 7) → class_kind m cls = RRes.undefined)
    ∧ (1 ≤ b % 8 → b % 8 ≤ 6 →
        ∃ k, class_kind m cls = RRes.ok k ∧ MonoKind.toNat k = b % 8) := by
  constructor
  · rintro (h0 | h0) <;> simp [class_kind, h, h0, monoKindOfNat]
  · intro h1 h6
    simp only [class_kind, h]
    set r := b % 8 with hr
    interval_cases r <;> exact ⟨_, rfl, rfl⟩

/-- Witness for C10 at the concrete `Ginst` kind byte 3 of `memG`. -/
theorem class_kind_decode_witness :
    ∃ k, class_kind memG 0x1000 = RRes.ok k ∧ MonoKind.toNat k = 3 % 8 :=
  (class_kind_decode memG 0x1000 3 (by decide)).2 (by decide) (by decide)

/-- C8: a save-profile change is counted exactly like a read failure.
(1) When `SaveData.Instance` reads nonzero and differs from the cached
`prev_save`, the snapshot returns absent after updating `prev_save` and
clearing `mode_stats` (and warning "changed saves").  (2) An absent snapshot
with a previous one held increments `failed_reads`.  (3) Concretely, 100
consecutive ticks whose save address changes every tick drop the adapter
and the previous snapshot. -/
theorem save_swap_counts_as_failure :
    (∀ (p : ProcOps) (c : Celeste) (asi : AutoSplitterInfo) (sa : Nat),
      p.readAsi c.info = some asi → asi.level = 0 →
      p.static_field c.save_data_class "Instance" = some sa →
      sa ≠ 0 → sa ≠ c.prev_save →
      Celeste.update p c =
        ({ c with prev_save := sa, mode_stats := 0 }, none,
         [LogEvent.warn "changed saves"]))
    ∧ (∀ (p : ProcOps) (t : Option Celeste) (s : MySplitter) (st st' : Celeste)
        (old : Info) (lg : List LogEvent),
        s.state = some st → s.old_info = some old →
        Celeste.update p st = (st', none, lg) → s.failed_reads + 1 ≠ 100 →
        (MySplitter.update p t s).1.failed_reads = s.failed_reads + 1)
    ∧ (runSeq psC8 none 100 s8).1 =
        { state := none, old_info := none, was_connected := true,
          current_split := Split.Site, failed_reads := 100 } := by
  refine ⟨?_, ?_, by decide⟩
  · intro p c asi sa h1 h2 h3 h4 h5
    simp [Celeste.update, Celeste.saveBlock, h1, h2, h3, h4, h5]
  · intro p t s st st' old lg h1 h2 hcu hfr
    obtain ⟨st0, oi, wc, cs, fr⟩ := s
    dsimp only at h1 h2 hfr ⊢
    subst h1; subst h2
    simp [MySplitter.update, hcu, hfr]

/-- Witness for C8: the first save-swap tick of the concrete scenario
returns an absent snapshot with `prev_save` updated, and the splitter
increments `failed_reads` to 1. -/
theorem save_swap_witness :
    Celeste.update (psC8 0) c0 =
      ({ c0 with prev_save := 1, mode_stats := 0 }, none,
       [LogEvent.warn "changed saves"])
    ∧ (MySplitter.update (psC8 0) none s8).1.failed_reads = s8.failed_reads + 1 :=
  ⟨save_swap_counts_as_failure.1 (psC8 0) c0 asiMenu 1 rfl rfl rfl
      (by decide) (by decide),
   save_swap_counts_as_failure.2.1 (psC8 0) none s8 c0
      { c0 with prev_save := 1, mode_stats := 0 } infoMenu
      [LogEvent.warn "changed saves"] rfl rfl (by decide) (by decide)⟩

/-- Connected splitter state one failure short of the drop threshold. -/
def s9 : MySplitter :=
  { state := some c0, old_info := some infoMenu, was_connected := true,
    current_split := Split.Site, failed_reads := 99 }

/-- C9: the threshold drop clears exactly `state` and `old_info`:
`current_split` and `was_connected` are unchanged and `failed_reads` keeps
the just-incremented threshold value 100 (it is not reset).  A subsequent
tick with no adapter and a successful `try_init` stores the fresh adapter
and touches nothing else, so the split progression resumes from the split
reached before the disconnect. -/
theorem adapter_drop_preserves :
    (∀ (p : ProcOps) (t : Option Celeste) (s : MySplitter) (st st' : Celeste)
        (old : Info) (lg : List LogEvent),
      s.state = some st → s.old_info = some old →
      Celeste.update p st = (st', none, lg) →
      s.failed_reads = 99 → s.was_connected = true →
      (MySplitter.update p t s).1 =
        { state := none, old_info := none, was_connected := s.was_connected,
          current_split := s.current_split, failed_reads := 100 })
    ∧ (∀ (p : ProcOps) (c : Celeste) (s : MySplitter),
        s.state = none →
        (MySplitter.update p (some c) s).1 =
          { state := some c, old_info := s.old_info,
            was_connected := s.was_connected,
            current_split := s.current_split, failed_reads := s.failed_reads }) := by
  constructor
  · intro p t s st st' old lg h1 h2 hcu hfr hwc
    obtain ⟨st0, oi, wc, cs, fr⟩ := s
    dsimp only at h1 h2 hfr hwc ⊢
    subst h1; subst h2; subst hfr; subst hwc
    simp [MySplitter.update, hcu]
  · intro p c s h1
    obtain ⟨st0, oi, wc, cs, fr⟩ := s
    dsimp only at h1 ⊢
    subst h1
    simp [MySplitter.update]

/-- Witness for C9: the concrete drop tick from `failed_reads = 99` followed
by a successful reattach, resuming at split `Site`. -/
theorem adapter_drop_witness :
    (MySplitter.update pFail none s9).1 =
      { state := none, old_info := none, was_connected := s9.was_connected,
        current_split := s9.current_split, failed_reads := 100 }
    ∧ (MySplitter.update pFail (some c0) (MySplitter.update pFail none s9).1).1 =
      { state := some c0, old_info := none, was_connected := true,
        current_split := Split.Site, failed_reads := 100 } :=
  ⟨adapter_drop_preserves.1 pFail none s9 c0 c0 infoMenu [] rfl rfl rfl rfl rfl,
   adapter_drop_preserves.2 pFail c0 (MySplitter.update pFail none s9).1 (by decide)⟩
